import Mathlib

/-!
Verification development for the voice-payment backend (src/backend.py).

The file shallow-embeds the two cores of the program:

* `extract_amount` — the amount parser (backend.py lines 46-93): a first
  maximal digit run wins, otherwise an English number-word left fold.
* `create_order` and `verify_payment` — the Razorpay order / verification
  endpoints (backend.py lines 143-243), in explicit state-passing style over
  a `Backend` record holding the process globals.  The payment provider is
  an external collaborator and is modelled from the spec (section 6).

Strings are handled through their character lists; Python `\d`, `\w`,
`str.lower`, `str.split` are modelled on the ASCII range, which covers every
input the claims mention.
-/

/-- Maximal runs of characters satisfying `p`, mirroring `re.findall` with the
pattern `p+`.  `acc` is the (reversed) run currently being read. -/
def runsGo (p : Char → Bool) : List Char → List Char → List (List Char)
  | acc, [] => if acc.isEmpty then [] else [acc.reverse]
  | acc, c :: cs =>
    if p c then runsGo p (c :: acc) cs
    else if acc.isEmpty then runsGo p [] cs
    else acc.reverse :: runsGo p [] cs

/-- All maximal runs of characters satisfying `p` in `l`. -/
def runs (p : Char → Bool) (l : List Char) : List (List Char) :=
  runsGo p [] l

/-- Base-10 value of a digit string, as Python `int` computes it. -/
def natOfDigits (l : List Char) : ℕ :=
  l.foldl (fun n c => 10 * n + (c.toNat - 48)) 0

/-- Does the text contain a decimal digit character. -/
def hasDigit (s : String) : Bool :=
  s.data.any Char.isDigit

/-- The word-to-number table of `extract_amount` (backend.py lines 62-70). -/
def wordList : List (String × ℕ) :=
  [("zero", 0), ("one", 1), ("two", 2), ("three", 3), ("four", 4),
   ("five", 5), ("six", 6), ("seven", 7), ("eight", 8), ("nine", 9),
   ("ten", 10), ("eleven", 11), ("twelve", 12), ("thirteen", 13),
   ("fourteen", 14), ("fifteen", 15), ("sixteen", 16), ("seventeen", 17),
   ("eighteen", 18), ("nineteen", 19), ("twenty", 20), ("thirty", 30),
   ("forty", 40), ("fifty", 50), ("sixty", 60), ("seventy", 70),
   ("eighty", 80), ("ninety", 90), ("hundred", 100), ("thousand", 1000)]

/-- A word character in the sense of the regex class `\w` (ASCII range). -/
def isWordChar (c : Char) : Bool :=
  c.isAlphanum || c == '_'

/-- `re.sub` removing every character outside `\w` and whitespace from a token
(backend.py line 78); tokens carry no whitespace, so only `\w` matters. -/
def cleanToken (w : List Char) : String :=
  String.mk (w.filter isWordChar)

/-- One iteration of the word loop of `extract_amount`
(backend.py lines 76-90), on the pair (total, current). -/
def srcStep (tc : ℕ × ℕ) (w : List Char) : ℕ × ℕ :=
  match List.lookup (cleanToken w) wordList with
  | none => tc
  | some num =>
    if num = 100 then (tc.1, if tc.2 ≠ 0 then tc.2 * 100 else 100)
    else if num = 1000 then (tc.1 + (if tc.2 ≠ 0 then tc.2 else 1) * 1000, 0)
    else (tc.1, tc.2 + num)

/-- The word loop of `extract_amount`: lowercase, split on whitespace, fold. -/
def wordFold (text : String) : ℕ × ℕ :=
  (runs (fun c => !c.isWhitespace) (text.data.map Char.toLower)).foldl srcStep (0, 0)

/-- `extract_amount` (backend.py lines 46-93): first maximal digit run wins;
otherwise fold the number words and return the sum if strictly positive. -/
def extract_amount (text : String) : Option ℕ :=
  match runs Char.isDigit text.data with
  | d :: _ => some (natOfDigits d)
  | [] =>
    let tc := wordFold text
    if tc.1 + tc.2 > 0 then some (tc.1 + tc.2) else none

/-- The first maximal run of decimal digit characters of the text, written as
the spec describes it (skip to the first digit, take the digits). -/
def firstDigitRun (s : String) : List Char :=
  (s.data.dropWhile (fun c => !c.isDigit)).takeWhile Char.isDigit

/-- Final amount of the word path, spec wording: total plus current. -/
def wordTotal (s : String) : ℕ :=
  (wordFold s).1 + (wordFold s).2

/-- Modelled from the spec, section 4.1 step 2: one fold step over the number
words, branching on the word itself.  A unit/teen/ten word adds its value to
current; "hundred" multiplies current by 100 treating an empty current as 1;
"thousand" multiplies current (empty treated as 1) by 1000, commits the
product into total and resets current. -/
def specStep (tc : ℕ × ℕ) (w : List Char) : ℕ × ℕ :=
  match List.lookup (cleanToken w) wordList with
  | none => tc
  | some v =>
    if cleanToken w = "hundred" then (tc.1, (if tc.2 = 0 then 1 else tc.2) * 100)
    else if cleanToken w = "thousand" then
      (tc.1 + (if tc.2 = 0 then 1 else tc.2) * 1000, 0)
    else (tc.1, tc.2 + v)

/-- Modelled from the spec, section 4.1 steps 2-3: the whole word-parsing
path, for comparison with the word path of `extract_amount`. -/
def specWordParse (text : String) : Option ℕ :=
  let tc := (runs (fun c => !c.isWhitespace) (text.data.map Char.toLower)).foldl specStep (0, 0)
  if 0 < tc.1 + tc.2 then some (tc.1 + tc.2) else none

/-- A provider-side order record: the fields of the createOrder response the
program reads (backend.py lines 173-181), together with the initial Razorpay
order status, which is the string "created". -/
structure ProviderOrder where
  id : String
  amount : ℤ
  currency : String
  status : String
deriving DecidableEq

/-- A provider-side payment record: the fields of the fetch response that
verify_payment reads (backend.py lines 221-231). -/
structure ProviderPayment where
  amount : ℤ
  status : String
deriving DecidableEq

/-- Modelled from the spec, section 6: the PaymentProviderGateway, the
external collaborator behind the razorpay client.  `sigOf` is the
deterministic shared-secret signature scheme over order id and payment id;
`createFails` makes the order-creation call raise, modelling a provider or
network failure. -/
structure Provider where
  nextId : ℕ
  orders : List ProviderOrder
  payments : List (String × ProviderPayment)
  sigOf : String → String → String
  createFails : Bool

/-- Modelled from the spec, section 6: PaymentProviderGateway.createOrder
stores and returns an order record carrying a fresh id and the requested
minor-unit amount and currency. -/
def Provider.createOrder (p : Provider) (amt : ℤ) (cur : String) :
    Except String (ProviderOrder × Provider) :=
  if p.createFails then Except.error "provider error"
  else
    let o : ProviderOrder := ⟨"order_" ++ toString p.nextId, amt, cur, "created"⟩
    Except.ok (o, ⟨p.nextId + 1, o :: p.orders, p.payments, p.sigOf, p.createFails⟩)

/-- Modelled from the spec, section 6: PaymentProviderGateway.fetchPayment,
raising when the payment id is unknown. -/
def Provider.fetchPayment (p : Provider) (pid : String) :
    Except String ProviderPayment :=
  match List.lookup pid p.payments with
  | some pay => Except.ok pay
  | none => Except.error "payment not found"

/-- The process-wide globals of backend.py: the configured key id and the
provider client.  This is the entire mutable state of the program; in
particular no local store of payment intents exists anywhere in it. -/
structure Backend where
  keyId : String
  provider : Provider

/-- A JSON value in the `amount` field of a create-order body: a number, or
a non-numeric value such as a string (backend.py line 156). -/
inductive JVal where
  | num (q : ℚ)
  | str (s : String)
deriving DecidableEq

/-- The body of a create-order request (backend.py lines 155-157). -/
structure CreateOrderRequest where
  amount : Option JVal
  upi_id : Option String

/-- The create-order responses: 400 invalid amount, 500 carrying the
exception text, or the success payload of backend.py lines 177-183. -/
inductive CreateOrderResponse where
  | invalidAmount
  | serverError (msg : String)
  | success (order_id : String) (amount : ℤ) (currency : String) (key_id : String)
deriving DecidableEq

/-- Python `int()` on a rational value: truncation toward zero. -/
def pyTrunc (q : ℚ) : ℤ :=
  if 0 ≤ q then ⌊q⌋ else ⌈q⌉

/-- `create_order` (backend.py lines 143-187).  `not amount or amount <= 0`
rejects an absent amount, an empty string and a non-positive number with a
400; comparing a non-empty string to 0 raises TypeError, which the outer
handler turns into a 500.  A valid amount is truncated to an integer, scaled
by 100 and sent to the provider; the response echoes the provider record and
the configured key id.  The exception text stands for the Python TypeError
message, whose exact wording the program does not inspect. -/
def create_order (b : Backend) (req : CreateOrderRequest) :
    CreateOrderResponse × Backend :=
  match req.amount with
  | none => (CreateOrderResponse.invalidAmount, b)
  | some (JVal.str s) =>
    if s.isEmpty then (CreateOrderResponse.invalidAmount, b)
    else (CreateOrderResponse.serverError "TypeError", b)
  | some (JVal.num q) =>
    if q ≤ 0 then (CreateOrderResponse.invalidAmount, b)
    else
      match Provider.createOrder b.provider (pyTrunc q * 100) "INR" with
      | Except.error e => (CreateOrderResponse.serverError e, b)
      | Except.ok (o, p2) =>
        (CreateOrderResponse.success o.id o.amount o.currency b.keyId, ⟨b.keyId, p2⟩)

/-- The body of a verify-payment request (backend.py lines 203-205). -/
structure VerifyRequest where
  razorpay_order_id : Option String
  razorpay_payment_id : Option String
  razorpay_signature : Option String

/-- The verify-payment responses (backend.py lines 207-243): 400 missing
details, 400 structured signature failure, 500 on a raised exception, or the
success payload with the fetched amount converted back to rupees. -/
inductive VerifyResponse where
  | missingDetails
  | sigFailed
  | serverError (msg : String)
  | verified (payment_id : String) (amount : ℚ) (status : String)
deriving DecidableEq

/-- `verify_payment` (backend.py lines 189-243).  `not all([...])` rejects
absent and empty fields with a 400; a signature mismatch raises
SignatureVerificationError, caught and reported as a structured 400 result;
on a matching signature the payment is fetched and reported with its amount
divided by 100, a failing fetch raising into the 500 handler.  The function
reads and writes no local order state. -/
def verify_payment (b : Backend) (req : VerifyRequest) :
    VerifyResponse × Backend :=
  match req.razorpay_order_id, req.razorpay_payment_id, req.razorpay_signature with
  | some oid, some pid, some sig =>
    if oid.isEmpty || pid.isEmpty || sig.isEmpty then
      (VerifyResponse.missingDetails, b)
    else if b.provider.sigOf oid pid = sig then
      match Provider.fetchPayment b.provider pid with
      | Except.ok pay =>
        (VerifyResponse.verified pid ((pay.amount : ℚ) / 100) pay.status, b)
      | Except.error e => (VerifyResponse.serverError e, b)
    else (VerifyResponse.sigFailed, b)
  | _, _, _ => (VerifyResponse.missingDetails, b)

/-- A concrete backend for the witnesses: one captured payment of 25000
paise under id pay_1, no orders, and a transparent signature scheme. -/
def testBackend : Backend :=
  ⟨"key_live",
   ⟨0, [], [("pay_1", ⟨25000, "captured"⟩)], fun o p => o ++ "|" ++ p, false⟩⟩

theorem runsGo_head_of_ne (p : Char → Bool) (l : List Char) :
    ∀ acc : List Char, acc ≠ [] →
      (runsGo p acc l).head? = some (acc.reverse ++ l.takeWhile p) := by
  induction l with
  | nil =>
    intro acc h
    cases acc with
    | nil => exact absurd rfl h
    | cons a as => simp [runsGo]
  | cons c cs ih =>
    intro acc h
    by_cases hp : p c = true
    · have := ih (c :: acc) (by simp)
      simp only [runsGo, hp, if_true]
      rw [this]
      simp [List.takeWhile, hp]
    · cases acc with
      | nil => exact absurd rfl h
      | cons a as =>
        simp only [runsGo, hp]
        simp [List.takeWhile, hp]

theorem runs_head_of_any (p : Char → Bool) (l : List Char) (h : l.any p = true) :
    (runs p l).head? = some ((l.dropWhile (fun c => !p c)).takeWhile p) := by
  induction l with
  | nil => simp at h
  | cons c cs ih =>
    by_cases hp : p c = true
    · have := runsGo_head_of_ne p cs [c] (by simp)
      simp only [runs, runsGo, hp, if_true]
      rw [this]
      simp [List.dropWhile, List.takeWhile, hp]
    · have hcs : cs.any p = true := by simpa [hp] using h
      have hstep : runs p (c :: cs) = runs p cs := by
        simp [runs, runsGo, hp]
      rw [hstep, ih hcs]
      simp [List.dropWhile, hp]

theorem runs_nil_of_none (p : Char → Bool) (l : List Char) (h : l.any p = false) :
    runs p l = [] := by
  induction l with
  | nil => rfl
  | cons c cs ih =>
    simp only [List.any_cons, Bool.or_eq_false_iff] at h
    simp only [runs, runsGo, h.1]
    exact ih h.2

theorem lookup_eq_hundred (s : String) (h : List.lookup s wordList = some 100) :
    s = "hundred" := by
  simp only [wordList, List.lookup] at h
  repeat' split at h
  all_goals simp_all

theorem lookup_eq_thousand (s : String) (h : List.lookup s wordList = some 1000) :
    s = "thousand" := by
  simp only [wordList, List.lookup] at h
  repeat' split at h
  all_goals simp_all

theorem step_eq (tc : ℕ × ℕ) (w : List Char) : srcStep tc w = specStep tc w := by
  unfold srcStep specStep
  cases h : List.lookup (cleanToken w) wordList with
  | none => rfl
  | some v =>
    by_cases h100 : v = 100
    · subst h100
      have hw := lookup_eq_hundred _ h
      rw [hw]
      simp only [if_true, if_pos rfl]
      rcases Nat.eq_zero_or_pos tc.2 with h2 | h2
      · simp [h2]
      · have : tc.2 ≠ 0 := Nat.pos_iff_ne_zero.mp h2
        simp [this]
    · by_cases h1000 : v = 1000
      · subst h1000
        have hw := lookup_eq_thousand _ h
        rw [hw]
        have hne : ("thousand" : String) ≠ "hundred" := by decide
        simp only [if_neg hne, if_pos rfl, if_neg h100, if_true]
        rcases Nat.eq_zero_or_pos tc.2 with h2 | h2
        · simp [h2]
        · have : tc.2 ≠ 0 := Nat.pos_iff_ne_zero.mp h2
          simp [this]
      · have hwh : cleanToken w ≠ "hundred" := by
          intro he
          rw [he] at h
          have : List.lookup ("hundred" : String) wordList = some 100 := by decide
          rw [this] at h
          exact h100 (Option.some.inj h).symm
        have hwt : cleanToken w ≠ "thousand" := by
          intro he
          rw [he] at h
          have : List.lookup ("thousand" : String) wordList = some 1000 := by decide
          rw [this] at h
          exact h1000 (Option.some.inj h).symm
        simp [h100, h1000, hwh, hwt]

theorem verify_payment_state (b : Backend) (r : VerifyRequest) :
    (verify_payment b r).2 = b := by
  rcases r with ⟨_ | o, _ | p, _ | s⟩
  all_goals simp only [verify_payment]
  all_goals repeat' split
  all_goals rfl

/-- C4: for every text containing a decimal digit character, extract_amount
returns the base-10 value of the first maximal run of digit characters and
the word path is never consulted. -/
theorem extract_amount_digit_path (s : String) (h : hasDigit s = true) :
    extract_amount s = some (natOfDigits (firstDigitRun s)) := by
  have h2 : s.data.any Char.isDigit = true := h
  have hh := runs_head_of_any Char.isDigit s.data h2
  cases hr : runs Char.isDigit s.data with
  | nil => rw [hr] at hh; simp at hh
  | cons d rest =>
    rw [hr] at hh
    simp only [List.head?_cons] at hh
    have hd : d = firstDigitRun s := by
      unfold firstDigitRun
      exact Option.some.inj hh
    simp only [extract_amount, hr, hd]

/-- Witness for C4 at the text of the spec example: it has a digit and its
parse is 250. -/
theorem extract_amount_digit_path_witness :
    hasDigit "pay 250 rupees" = true ∧
    extract_amount "pay 250 rupees" = some 250 := by
  refine ⟨by decide, ?_⟩
  exact (extract_amount_digit_path "pay 250 rupees" (by decide)).trans (by decide)

/-- C5: on digit-free text, the word path of extract_amount computes exactly
the left fold the spec describes (unit words add to current, hundred scales
current treating empty as 1, thousand scales and commits into total,
unrecognized tokens are skipped), and the spec examples hold. -/
theorem extract_amount_word_fold_spec :
    (∀ s : String, hasDigit s = false → extract_amount s = specWordParse s) ∧
    extract_amount "two thousand five hundred" = some 2500 ∧
    extract_amount "twenty one hundred" = some 2100 := by
  refine ⟨?_, by decide, by decide⟩
  intro s h
  have h2 : s.data.any Char.isDigit = false := h
  have hr : runs Char.isDigit s.data = [] := runs_nil_of_none _ _ h2
  have hstep : srcStep = specStep := funext fun tc => funext fun w => step_eq tc w
  simp only [extract_amount, hr, wordFold, specWordParse, hstep]

/-- Witness for C5 on a concrete digit-free text. -/
theorem extract_amount_word_fold_spec_witness :
    hasDigit "five hundred" = false ∧
    extract_amount "five hundred" = specWordParse "five hundred" :=
  ⟨by decide, extract_amount_word_fold_spec.1 "five hundred" (by decide)⟩

/-- C6: on digit-free text extract_amount returns total plus current when
strictly positive and none otherwise; in particular zero parses to none and
a text with no recognized words parses to none. -/
theorem extract_amount_positive_only :
    (∀ s : String, hasDigit s = false →
       extract_amount s = if 0 < wordTotal s then some (wordTotal s) else none) ∧
    extract_amount "zero" = none ∧ extract_amount "hello world" = none := by
  refine ⟨?_, by decide, by decide⟩
  intro s h
  have h2 : s.data.any Char.isDigit = false := h
  have hr : runs Char.isDigit s.data = [] := runs_nil_of_none _ _ h2
  simp only [extract_amount, hr, wordTotal]

/-- Witness for C6 on a concrete digit-free text. -/
theorem extract_amount_positive_only_witness :
    hasDigit "six" = false ∧
    extract_amount "six" = if 0 < wordTotal "six" then some (wordTotal "six") else none :=
  ⟨by decide, extract_amount_positive_only.1 "six" (by decide)⟩

/-- C9: a text whose first maximal digit run is the single digit 0 parses to
0 through the digit path, while the zero-suppression of the word path sends
the word zero to none. -/
theorem extract_amount_zero_digit_path :
    extract_amount "0 rupees" = some 0 ∧ extract_amount "zero" = none :=
  ⟨by decide, by decide⟩

/-- C2: for every integer amount strictly greater than 0, a successful
create_order call sends amount times 100 to the provider, whose store gains
an order record over that minor-unit amount in the initial status "created",
and the response carries the provider order id, the minor-unit amount, the
currency and the configured key id. -/
theorem create_order_stores_and_returns (b : Backend) (n : ℕ) (u : Option String)
    (hn : 0 < n) (hf : b.provider.createFails = false) :
    (create_order b ⟨some (JVal.num (n : ℚ)), u⟩).1
      = CreateOrderResponse.success ("order_" ++ toString b.provider.nextId)
          ((n : ℤ) * 100) "INR" b.keyId ∧
    (create_order b ⟨some (JVal.num (n : ℚ)), u⟩).2.provider.orders
      = ⟨"order_" ++ toString b.provider.nextId, (n : ℤ) * 100, "INR", "created"⟩
          :: b.provider.orders := by
  have h0 : ¬ ((n : ℚ) ≤ 0) := by
    rw [not_le]
    exact_mod_cast hn
  have ht : pyTrunc (n : ℚ) = (n : ℤ) := by
    unfold pyTrunc
    rw [if_pos (Nat.cast_nonneg n), Int.floor_natCast]
  simp [create_order, Provider.createOrder, hf, h0, ht]

/-- Witness for C2 at amount 250 on the concrete backend. -/
theorem create_order_stores_and_returns_witness :
    0 < 250 ∧
    (create_order testBackend ⟨some (JVal.num ((250 : ℕ) : ℚ)), none⟩).1
      = CreateOrderResponse.success "order_0" 25000 "INR" "key_live" := by
  refine ⟨by decide, ?_⟩
  have h := create_order_stores_and_returns testBackend 250 none (by decide) rfl
  exact h.1.trans (by decide)

/-- C10: every accepted numeric amount is truncated toward zero before the
scaling by 100, so the minor-unit amount sent to the provider is
pyTrunc amount times 100; an amount strictly between 0 and 1 passes the
validation yet produces a provider order over 0 minor units. -/
theorem create_order_truncates_amount (b : Backend) (q : ℚ) (u : Option String)
    (hq : 0 < q) (hf : b.provider.createFails = false) :
    (create_order b ⟨some (JVal.num q), u⟩).1
      = CreateOrderResponse.success ("order_" ++ toString b.provider.nextId)
          (pyTrunc q * 100) "INR" b.keyId ∧
    (q < 1 → pyTrunc q * 100 = 0) := by
  constructor
  · have h0 : ¬ (q ≤ 0) := not_le.mpr hq
    simp [create_order, Provider.createOrder, hf, h0]
  · intro h1
    have h2 : pyTrunc q = 0 := by
      unfold pyTrunc
      rw [if_pos hq.le]
      exact Int.floor_eq_zero_iff.mpr (Set.mem_Ico.mpr ⟨hq.le, h1⟩)
    rw [h2]
    ring

/-- Witness for C10 at the fractional amount one half: it is accepted and
the created order is for 0 minor units. -/
theorem create_order_truncates_amount_witness :
    (0 : ℚ) < 1/2 ∧ (1 : ℚ)/2 < 1 ∧
    (create_order testBackend ⟨some (JVal.num (1/2)), none⟩).1
      = CreateOrderResponse.success "order_0" 0 "INR" "key_live" := by
  refine ⟨by norm_num, by norm_num, ?_⟩
  have h := create_order_truncates_amount testBackend (1/2) none (by norm_num) rfl
  have h2 : pyTrunc (1/2 : ℚ) * 100 = 0 := h.2 (by norm_num)
  refine h.1.trans ?_
  rw [h2]
  rfl

/-- C1: when the signature matches and the payment fetch succeeds, the
amount verify_payment reports is the fetched provider amount divided by 100,
and the result is unchanged under any alteration of the provider-side order
records, so it never comes from the amount requested at order creation. -/
theorem verify_amount_from_provider_fetch (b : Backend)
    (oid pid sig : String) (pay : ProviderPayment)
    (h1 : oid.isEmpty = false) (h2 : pid.isEmpty = false) (h3 : sig.isEmpty = false)
    (hsig : b.provider.sigOf oid pid = sig)
    (hfetch : Provider.fetchPayment b.provider pid = Except.ok pay) :
    (verify_payment b ⟨some oid, some pid, some sig⟩).1
      = VerifyResponse.verified pid ((pay.amount : ℚ) / 100) pay.status ∧
    ∀ (k : String) (p2 : Provider), p2.sigOf = b.provider.sigOf →
      p2.payments = b.provider.payments →
      (verify_payment ⟨k, p2⟩ ⟨some oid, some pid, some sig⟩).1
        = VerifyResponse.verified pid ((pay.amount : ℚ) / 100) pay.status := by
  constructor
  · simp [verify_payment, h1, h2, h3, hsig, hfetch]
  · intro k p2 hs hp
    have hfetch2 : Provider.fetchPayment p2 pid = Except.ok pay := by
      unfold Provider.fetchPayment at hfetch ⊢
      rw [hp]
      exact hfetch
    simp [verify_payment, h1, h2, h3, hs, hsig, hfetch2]

/-- Witness for C1: a verification against the concrete backend reports the
fetched 25000 paise as 250 rupees. -/
theorem verify_amount_from_provider_fetch_witness :
    (verify_payment testBackend
        ⟨some "order_x", some "pay_1", some "order_x|pay_1"⟩).1
      = VerifyResponse.verified "pay_1" 250 "captured" := by
  have h := verify_amount_from_provider_fetch testBackend "order_x" "pay_1"
      "order_x|pay_1" ⟨25000, "captured"⟩ rfl rfl rfl rfl rfl
  refine h.1.trans ?_
  norm_num

/-- C3 counterexample: the provider store of the concrete backend holds no
order at all, yet a verification naming the never-created id order_unknown
is answered with full success and an unchanged state, not with an
UnknownOrder rejection — verify_payment performs no order lookup. -/
theorem verify_unknown_order_succeeds_cex :
    testBackend.provider.orders = [] ∧
    (verify_payment testBackend
        ⟨some "order_unknown", some "pay_1", some "order_unknown|pay_1"⟩).1
      = VerifyResponse.verified "pay_1" 250 "captured" ∧
    (verify_payment testBackend
        ⟨some "order_unknown", some "pay_1", some "order_unknown|pay_1"⟩).2
      = testBackend := by
  refine ⟨rfl, ?_, rfl⟩
  have h0 : (verify_payment testBackend
      ⟨some "order_unknown", some "pay_1", some "order_unknown|pay_1"⟩).1
      = VerifyResponse.verified "pay_1" (((25000 : ℤ) : ℚ) / 100) "captured" := rfl
  rw [h0]
  norm_num

/-- C3 amended: verify_payment never mutates the backend state and consults
no order store; with all three fields present its outcome is fully
determined by the signature check and the payment fetch, with no
UnknownOrder or AlreadyFinalized rejection anywhere. -/
theorem verify_no_order_lookup (b : Backend) (oid pid sig : String)
    (h1 : oid.isEmpty = false) (h2 : pid.isEmpty = false) (h3 : sig.isEmpty = false) :
    (∀ r : VerifyRequest, (verify_payment b r).2 = b) ∧
    (b.provider.sigOf oid pid ≠ sig →
      (verify_payment b ⟨some oid, some pid, some sig⟩).1 = VerifyResponse.sigFailed) ∧
    (∀ pay : ProviderPayment, b.provider.sigOf oid pid = sig →
      Provider.fetchPayment b.provider pid = Except.ok pay →
      (verify_payment b ⟨some oid, some pid, some sig⟩).1
        = VerifyResponse.verified pid ((pay.amount : ℚ) / 100) pay.status) ∧
    (∀ e : String, b.provider.sigOf oid pid = sig →
      Provider.fetchPayment b.provider pid = Except.error e →
      (verify_payment b ⟨some oid, some pid, some sig⟩).1
        = VerifyResponse.serverError e) := by
  refine ⟨verify_payment_state b, ?_, ?_, ?_⟩
  · intro hne
    simp [verify_payment, h1, h2, h3, hne]
  · intro pay hs hf
    simp [verify_payment, h1, h2, h3, hs, hf]
  · intro e hs hf
    simp [verify_payment, h1, h2, h3, hs, hf]

/-- Witness for the amended C3 on the concrete backend: a mismatching
signature yields the structured failure and leaves the state unchanged. -/
theorem verify_no_order_lookup_witness :
    (verify_payment testBackend ⟨some "oA", some "pA", some "wrongsig"⟩).2
      = testBackend ∧
    (verify_payment testBackend ⟨some "oA", some "pA", some "wrongsig"⟩).1
      = VerifyResponse.sigFailed := by
  have h := verify_no_order_lookup testBackend "oA" "pA" "wrongsig" rfl rfl rfl
  exact ⟨h.1 _, h.2.1 (by decide)⟩

/-- C8 counterexample: on a signature mismatch the response is the
structured failure, but the entire post-state equals the pre-state and the
Backend type carries no intent record at all, so no intent transitions to
Failed. -/
theorem verify_sig_mismatch_no_intent_cex :
    (verify_payment testBackend ⟨some "order_9", some "pay_9", some "forged"⟩).1
      = VerifyResponse.sigFailed ∧
    (verify_payment testBackend ⟨some "order_9", some "pay_9", some "forged"⟩).2
      = testBackend :=
  ⟨by decide, rfl⟩

/-- C8 amended: a supplied signature differing from the expected one makes
verify_payment return the structured verification-failed result (success
false, HTTP 400) rather than raising, with the backend state — which holds
no intent records — unchanged. -/
theorem verify_sig_mismatch_structured (b : Backend) (oid pid sig : String)
    (h1 : oid.isEmpty = false) (h2 : pid.isEmpty = false) (h3 : sig.isEmpty = false)
    (hne : b.provider.sigOf oid pid ≠ sig) :
    verify_payment b ⟨some oid, some pid, some sig⟩
      = (VerifyResponse.sigFailed, b) := by
  simp [verify_payment, h1, h2, h3, hne]

/-- Witness for the amended C8 at a concrete forged signature. -/
theorem verify_sig_mismatch_structured_witness :
    verify_payment testBackend ⟨some "order_w", some "pay_w", some "bad"⟩
      = (VerifyResponse.sigFailed, testBackend) :=
  verify_sig_mismatch_structured testBackend "order_w" "pay_w" "bad" rfl rfl rfl
    (by decide)

/-- C7 counterexample: a non-numeric amount is not rejected with the 400
invalid-amount response; the comparison with 0 raises and the generic
handler answers 500. -/
theorem create_order_non_numeric_500_cex :
    create_order testBackend ⟨some (JVal.str "abc"), none⟩
      = (CreateOrderResponse.serverError "TypeError", testBackend) ∧
    (create_order testBackend ⟨some (JVal.str "abc"), none⟩).1
      ≠ CreateOrderResponse.invalidAmount :=
  ⟨rfl, by decide⟩

/-- C7 amended: an absent amount, an empty string and a non-positive number
are rejected with the 400 invalid-amount response; a non-empty non-numeric
amount is answered with a 500 instead; in every rejection path the state is
unchanged, so the provider order-creation call is never made. -/
theorem create_order_validation (b : Backend) (req : CreateOrderRequest) :
    ((req.amount = none ∨ req.amount = some (JVal.str "") ∨
        ∃ q : ℚ, q ≤ 0 ∧ req.amount = some (JVal.num q)) →
      create_order b req = (CreateOrderResponse.invalidAmount, b)) ∧
    (∀ s : String, s ≠ "" → req.amount = some (JVal.str s) →
      create_order b req = (CreateOrderResponse.serverError "TypeError", b)) := by
  constructor
  · rintro (h | h | ⟨q, hq, h⟩)
    · simp [create_order, h]
    · have he : ("" : String).isEmpty = true := rfl
      simp [create_order, h, he]
    · simp [create_order, h, hq]
  · intro s hs h
    have he : s.isEmpty = false := by
      rw [Bool.eq_false_iff]
      intro hh
      exact hs ((String.isEmpty_iff s).mp hh)
    simp [create_order, h, he]

/-- Witness for the amended C7: an absent amount is rejected with the 400
invalid-amount response and the state is untouched. -/
theorem create_order_validation_witness :
    create_order testBackend ⟨none, none⟩
      = (CreateOrderResponse.invalidAmount, testBackend) :=
  (create_order_validation testBackend ⟨none, none⟩).1 (Or.inl rfl)
